import Mathlib

/-!
Shallow embedding of the data pipeline of the China CO₂ emissions dashboard
(`Data_Visualization_Project_First_Draft.py`): the loader (`load_data`), the
filter step (`df_filtered`), and the aggregations (`total_emissions`,
`avg_daily_emissions`, grouped sums, `top_5_provinces` / `top_n_by_region`).

Emission values are modelled as exact rationals (the spec fixes exact,
rounding-free sums for the aggregator); dates are calendar triples; a pandas
DataFrame column of possibly-missing cells is an `Option`-valued field; the
Streamlit error/warning surface is a list of load events.
-/

namespace CarbonApp

/-- A calendar date at day granularity. -/
structure Date where
  year : Int
  month : Nat
  day : Nat
deriving DecidableEq

/-- Full English month name, as produced by `Series.dt.month_name()`. -/
def monthName : Nat → String
  | 1 => "January"
  | 2 => "February"
  | 3 => "March"
  | 4 => "April"
  | 5 => "May"
  | 6 => "June"
  | 7 => "July"
  | 8 => "August"
  | 9 => "September"
  | 10 => "October"
  | 11 => "November"
  | 12 => "December"
  | _ => ""

/-- One row of the cleaned dataset (a row of `df_clean` after the derived
`Year` and `Month` columns are added and nulls are dropped). -/
structure EmissionRecord where
  region : String
  date : Date
  sector : String
  emissions : ℚ
  year : Int
  month_name : String
deriving DecidableEq

/-- The cleaned dataset: rows in source order. -/
abbrev Dataset := List EmissionRecord

/-- A raw spreadsheet row restricted to the four relevant columns; each cell
may be missing (NaN).  A `Date` cell is either text still to be parsed
(`Sum.inl`) or an already-typed date value (`Sum.inr`). -/
structure RawRow where
  state : Option String
  dateCell : Option (Sum String Date)
  sector : Option String
  emissions : Option ℚ
deriving DecidableEq

/-- The Excel source handed to `load_data`: whether the file can be read at
all, which columns it carries, its rows, and whether the `Date` column is
already of datetime dtype. -/
structure Source where
  readable : Bool
  columns : List String
  rows : List RawRow
  dateTyped : Bool
deriving DecidableEq

/-- The exceptions `pd.read_excel(filepath, usecols=relevant_cols)` can raise:
the file is unreadable/corrupt, or a requested column is absent. -/
inductive LoadErr where
  | sourceUnreadable
  | missingColumns
deriving DecidableEq

/-- The user-visible messages `load_data` can emit via `st.error`/`st.warning`. -/
inductive LoadEvent where
  | criticalError (e : LoadErr)
  | emptyWarning
  | dateError
deriving DecidableEq

/-- `relevant_cols` of the script. -/
def relevant_cols : List String := ["State", "Date", "Sector", "MtCO2 per day"]

/-- `pd.read_excel(filepath, usecols=relevant_cols)`: fails when the file is
unreadable or when some required column is missing, otherwise yields the rows
narrowed to the relevant columns. -/
def read_excel (src : Source) : Except LoadErr (List RawRow) :=
  if src.readable = false then .error .sourceUnreadable
  else if relevant_cols.all (fun c => decide (c ∈ src.columns)) then .ok src.rows
  else .error .missingColumns

/-- Split a character list on the `/` separator. -/
def splitSlash : List Char → List (List Char)
  | [] => [[]]
  | c :: cs =>
    if c = '/' then [] :: splitSlash cs
    else
      match splitSlash cs with
      | [] => [[c]]
      | t :: ts => (c :: t) :: ts

/-- Read a non-empty all-digit token as a number. -/
def digitsToNat : List Char → Option Nat
  | [] => none
  | cs =>
    cs.foldl
      (fun acc c =>
        match acc with
        | none => none
        | some n => if c.isDigit then some (n * 10 + (c.toNat - 48)) else none)
      (some 0)

/-- `pd.to_datetime(_, format=dd/mm/yyyy)` on one text token: split on `/`,
read day, month, year in that order, validate ranges. -/
def parseDate (s : String) : Option Date :=
  match splitSlash s.toList with
  | [d, m, y] =>
    match digitsToNat d, digitsToNat m, digitsToNat y with
    | some dd, some mm, some yy =>
        if 1 ≤ dd ∧ dd ≤ 31 ∧ 1 ≤ mm ∧ mm ≤ 12 then
          some { year := (yy : Int), month := mm, day := dd }
        else none
    | _, _, _ => none
  | _ => none

/-- `pd.to_datetime` on one cell of an object-dtype `Date` column: a missing
cell propagates as `NaT`; a text cell must parse in dd/mm/yyyy format; any
cell that does not fit the format raises. -/
def convertCell : Option (Sum String Date) → Except Unit (Option Date)
  | none => .ok none
  | some (.inl s) =>
    match parseDate s with
    | some d => .ok (some d)
    | none => .error ()
  | some (.inr _) => .error ()

/-- Reading a cell of a `Date` column that is already datetime dtype: a typed
date is used as-is, anything else is `NaT`. -/
def typedCell : Option (Sum String Date) → Option Date
  | some (.inr d) => some d
  | _ => none

/-- Column-wide `pd.to_datetime(df_clean[Date], format=dd/mm/yyyy)`: the
whole conversion fails as soon as any single cell fails. -/
def convertUntyped : List RawRow → Except Unit (List (RawRow × Option Date))
  | [] => .ok []
  | row :: rest =>
    match convertCell row.dateCell with
    | .error e => .error e
    | .ok d =>
      match convertUntyped rest with
      | .error e => .error e
      | .ok rs => .ok ((row, d) :: rs)

/-- The date-conversion step of `load_data`: skipped (cells used as typed
dates) when the column is already datetime dtype, otherwise parsed as a
whole with dd/mm/yyyy format. -/
def convertDates (typed : Bool) (rows : List RawRow) :
    Except Unit (List (RawRow × Option Date)) :=
  if typed then .ok (rows.map (fun row => (row, typedCell row.dateCell)))
  else convertUntyped rows

/-- Derivation of the `Year` and `Month` columns followed by `dropna`: a row
survives exactly when all of its cells (and hence both derived cells) are
non-null, and then becomes a cleaned record. -/
def buildRecord (row : RawRow) (d : Option Date) : Option EmissionRecord :=
  match row.state, d, row.sector, row.emissions with
  | some st, some dt, some sec, some em =>
      some { region := st, date := dt, sector := sec, emissions := em,
             year := dt.year, month_name := monthName dt.month }
  | _, _, _, _ => none

/-- `load_data` with its Streamlit message surface: every code path returns a
dataset (the Python function returns a DataFrame on all paths, raising
nothing), alongside the `st.error`/`st.warning` events it emitted. -/
def loadFull (src : Source) : Dataset × List LoadEvent :=
  match read_excel src with
  | .error e => ([], [.criticalError e])
  | .ok rows =>
    if rows.isEmpty then ([], [.emptyWarning])
    else
      match convertDates src.dateTyped rows with
      | .error _ => ([], [.dateError])
      | .ok rows2 => (rows2.filterMap (fun p => buildRecord p.1 p.2), [])

/-- The value `load_data` returns to its caller. -/
def load_data (src : Source) : Dataset := (loadFull src).1

/-- The error/warning messages `load_data` paints on the page. -/
def loadEvents (src : Source) : List LoadEvent := (loadFull src).2

/-- The three sidebar multiselect values (empty list = nothing selected). -/
structure FilterSelection where
  years : List Int
  regions : List String
  sectors : List String
deriving DecidableEq

/-- `sorted(df[Year].unique())`. -/
def all_years (df : Dataset) : List Int :=
  List.insertionSort (fun a b => a ≤ b) (df.map (fun r => r.year)).dedup

/-- `df[State].unique()` (first-occurrence order). -/
def all_provinces (df : Dataset) : List String :=
  (df.map (fun r => r.region)).dedup

/-- `df[Sector].unique()`. -/
def all_sectors (df : Dataset) : List String :=
  (df.map (fun r => r.sector)).dedup

/-- The empty-selection fallback of the script: `if not selected_years:
selected_years = all_years`, etc. -/
def effYears (df : Dataset) (s : FilterSelection) : List Int :=
  if s.years.isEmpty then all_years df else s.years

def effRegions (df : Dataset) (s : FilterSelection) : List String :=
  if s.regions.isEmpty then all_provinces df else s.regions

def effSectors (df : Dataset) (s : FilterSelection) : List String :=
  if s.sectors.isEmpty then all_sectors df else s.sectors

/-- `df.query('Year == @selected_years & State == @selected_provinces &
Sector == @selected_sectors')` after the empty-selection substitutions:
keeps, in order, the rows whose fields are members of the effective lists. -/
def df_filtered (df : Dataset) (s : FilterSelection) : Dataset :=
  df.filter (fun r =>
    decide (r.year ∈ effYears df s ∧ r.region ∈ effRegions df s ∧
      r.sector ∈ effSectors df s))

/-- Modelled from the spec (§4.2 Filter Engine), for comparison with
`df_filtered`: the subsequence of records whose year, region and sector lie in
the selected sets, each empty selection set first replaced by all values in
the dataset for that dimension. -/
def specFilter (df : Dataset) (s : FilterSelection) : Dataset :=
  df.filter (fun r =>
    decide (r.year ∈ (if s.years.isEmpty then df.map (fun x => x.year) else s.years) ∧
      r.region ∈ (if s.regions.isEmpty then df.map (fun x => x.region) else s.regions) ∧
      r.sector ∈ (if s.sectors.isEmpty then df.map (fun x => x.sector) else s.sectors)))

/-- `df[Emissions].sum()`. -/
def total_emissions (df : Dataset) : ℚ :=
  (df.map (fun r => r.emissions)).sum

/-- `df[Emissions].mean()` = sum / count. -/
def avg_daily_emissions (df : Dataset) : ℚ :=
  total_emissions df / (df.length : ℚ)

/-- Lexicographic (code-point) order on strings, phrased on the underlying
character lists. -/
def strLe (a b : String) : Prop := a.data ≤ b.data

/-- Strict lexicographic (code-point) order on strings. -/
def strLt (a b : String) : Prop := a.data < b.data

instance : DecidableRel strLe := fun a b => inferInstanceAs (Decidable (a.data ≤ b.data))

instance : DecidableRel strLt := fun a b => inferInstanceAs (Decidable (a.data < b.data))

instance : IsTotal String strLe := ⟨fun a b => le_total a.data b.data⟩

instance : IsTrans String strLe := ⟨fun _ _ _ h h2 => le_trans h h2⟩

/-- The sorted group keys produced by `df.groupby(col)` (pandas sorts keys
ascending by default). -/
def groupKeys (key : EmissionRecord → String) (df : Dataset) : List String :=
  List.insertionSort strLe ((df.map key).dedup)

/-- `df.groupby(col)[Emissions].sum()`: one `(key, summed emissions)` entry
per distinct key, keys ascending. -/
def group_sum_by_key (key : EmissionRecord → String) (df : Dataset) :
    List (String × ℚ) :=
  (groupKeys key df).map
    (fun k => (k, total_emissions (df.filter (fun r => decide (key r = k)))))

/-- `df.groupby(State)[Emissions].sum().nlargest(n)`: the grouped sums sorted
by value descending — stably, so ties keep the ascending-key order, matching
nlargest with keep=first — truncated to `n` entries. -/
def top_n_by_region (df : Dataset) (n : Nat) : List (String × ℚ) :=
  (List.insertionSort (fun a b => b.2 ≤ a.2)
    (group_sum_by_key (fun r => r.region) df)).take n

/-- `top_5_provinces` of the script: the index of `nlargest(5)`. -/
def top_5_provinces (df : Dataset) : List String :=
  (top_n_by_region df 5).map Prod.fst

/-- `province_data`: grouped sums by State, sorted by Emissions descending. -/
def province_data (df : Dataset) : List (String × ℚ) :=
  List.insertionSort (fun a b => b.2 ≤ a.2)
    (group_sum_by_key (fun r => r.region) df)

/-- `sector_data`: grouped sums by Sector. -/
def sector_data (df : Dataset) : List (String × ℚ) :=
  group_sum_by_key (fun r => r.sector) df

/-- The two key metrics of Tab 1. -/
structure Metrics where
  total : ℚ
  avgDaily : ℚ
deriving DecidableEq

/-- The guarded aggregation step of the script: `if df_filtered.empty:
st.stop()` halts the page before any metric is computed, so the metrics exist
only when the filter result is non-empty. -/
def pipelineMetrics (df : Dataset) (s : FilterSelection) : Option Metrics :=
  if (df_filtered df s).isEmpty then none
  else some { total := total_emissions (df_filtered df s),
              avgDaily := avg_daily_emissions (df_filtered df s) }

/-- Descending-by-total order with ties broken by region name ascending. -/
def lexRank (a b : String × ℚ) : Prop :=
  b.2 < a.2 ∨ (a.2 = b.2 ∧ strLt a.1 b.1)

/-- The worked example of spec §8: three cleaned records. -/
def sampleD : Dataset :=
  [ { region := "Shandong", date := { year := 2023, month := 1, day := 1 }, sector := "Power",
      emissions := 10, year := 2023, month_name := "January" },
    { region := "Shandong", date := { year := 2023, month := 1, day := 1 }, sector := "Industry",
      emissions := 5, year := 2023, month_name := "January" },
    { region := "Beijing", date := { year := 2023, month := 1, day := 2 }, sector := "Power",
      emissions := 2, year := 2023, month_name := "January" } ]

/-- A readable source carrying the four relevant columns, one clean row and
one row with a missing `State` cell. -/
def sampleSrc : Source :=
  { readable := true,
    columns := ["State", "Date", "Sector", "MtCO2 per day", "Extra"],
    rows := [ { state := some "Shandong", dateCell := some (.inl "01/01/2023"),
                sector := some "Power", emissions := some 10 },
              { state := none, dateCell := some (.inl "02/01/2023"),
                sector := some "Power", emissions := some 3 } ],
    dateTyped := false }

/-- The cleaned record the good row of `sampleSrc` becomes. -/
def sampleRec : EmissionRecord :=
  { region := "Shandong", date := { year := 2023, month := 1, day := 1 }, sector := "Power",
    emissions := 10, year := 2023, month_name := "January" }

/-- A readable source whose `Date` column is absent. -/
def srcNoDate : Source :=
  { readable := true,
    columns := ["State", "Sector", "MtCO2 per day"],
    rows := [ { state := some "Shandong", dateCell := none,
                sector := some "Power", emissions := some 10 } ],
    dateTyped := false }

/-- A readable source with the right columns but a date cell that does not
fit the dd/mm/yyyy format. -/
def srcBadDate : Source :=
  { readable := true,
    columns := ["State", "Date", "Sector", "MtCO2 per day"],
    rows := [ { state := some "Shandong", dateCell := some (.inl "2023-01-01"),
                sector := some "Power", emissions := some 10 } ],
    dateTyped := false }

/-- An unreadable (corrupt or absent) source. -/
def srcUnreadable : Source :=
  { readable := false, columns := [], rows := [], dateTyped := false }

/-- A perfectly loadable source that simply has zero rows. -/
def emptyOkSrc : Source :=
  { readable := true, columns := ["State", "Date", "Sector", "MtCO2 per day"],
    rows := [], dateTyped := true }

theorem mem_all_years {df : Dataset} {y : Int} :
    y ∈ all_years df ↔ y ∈ df.map (fun r => r.year) := by
  unfold all_years
  rw [List.mem_insertionSort, List.mem_dedup]

theorem mem_all_provinces {df : Dataset} {p : String} :
    p ∈ all_provinces df ↔ p ∈ df.map (fun r => r.region) := by
  unfold all_provinces
  rw [List.mem_dedup]

theorem mem_all_sectors {df : Dataset} {p : String} :
    p ∈ all_sectors df ↔ p ∈ df.map (fun r => r.sector) := by
  unfold all_sectors
  rw [List.mem_dedup]

theorem mem_effYears {df : Dataset} {s : FilterSelection} {y : Int} :
    y ∈ effYears df s ↔
      y ∈ (if s.years.isEmpty then df.map (fun r => r.year) else s.years) := by
  unfold effYears
  split
  · exact mem_all_years
  · exact Iff.rfl

theorem mem_effRegions {df : Dataset} {s : FilterSelection} {p : String} :
    p ∈ effRegions df s ↔
      p ∈ (if s.regions.isEmpty then df.map (fun r => r.region) else s.regions) := by
  unfold effRegions
  split
  · exact mem_all_provinces
  · exact Iff.rfl

theorem mem_effSectors {df : Dataset} {s : FilterSelection} {p : String} :
    p ∈ effSectors df s ↔
      p ∈ (if s.sectors.isEmpty then df.map (fun r => r.sector) else s.sectors) := by
  unfold effSectors
  split
  · exact mem_all_sectors
  · exact Iff.rfl

/-- C1: for every Dataset and FilterSelection, `df_filtered` returns exactly
the subsequence of records whose year, region and sector are members of the
selected sets after the empty-set-means-all substitution, preserving relative
order (it coincides with the spec-side filter, and is a sublist of the
input); as a Lean function it is pure by construction. -/
theorem c1_filter_matches_spec (df : Dataset) (s : FilterSelection) :
    df_filtered df s = specFilter df s ∧ (df_filtered df s).Sublist df := by
  constructor
  · unfold df_filtered specFilter
    apply List.filter_congr
    intro r _
    apply decide_eq_decide.mpr
    exact and_congr mem_effYears (and_congr mem_effRegions mem_effSectors)
  · exact List.filter_sublist df

/-- C2: filtering with all three selection sets empty returns the dataset
unchanged, because each empty set is replaced by all values present in the
dataset for that dimension. -/
theorem c2_empty_selection_identity (df : Dataset) (s : FilterSelection)
    (hy : s.years = []) (hr : s.regions = []) (hs : s.sectors = []) :
    df_filtered df s = df := by
  unfold df_filtered
  apply List.filter_eq_self.mpr
  intro r hmem
  apply decide_eq_true
  refine ⟨?_, ?_, ?_⟩
  · have h : s.years.isEmpty = true := by rw [hy]; rfl
    unfold effYears
    rw [if_pos h]
    exact mem_all_years.mpr (List.mem_map_of_mem _ hmem)
  · have h : s.regions.isEmpty = true := by rw [hr]; rfl
    unfold effRegions
    rw [if_pos h]
    exact mem_all_provinces.mpr (List.mem_map_of_mem _ hmem)
  · have h : s.sectors.isEmpty = true := by rw [hs]; rfl
    unfold effSectors
    rw [if_pos h]
    exact mem_all_sectors.mpr (List.mem_map_of_mem _ hmem)

theorem c2_witness :
    df_filtered sampleD { years := [], regions := [], sectors := [] } = sampleD :=
  c2_empty_selection_identity sampleD _ rfl rfl rfl

/-- C5: the filter is idempotent — filtering an already-filtered dataset with
the same selection changes nothing. -/
theorem c5_filter_idempotent (df : Dataset) (s : FilterSelection) :
    df_filtered (df_filtered df s) s = df_filtered df s := by
  conv_lhs => rw [df_filtered]
  apply List.filter_eq_self.mpr
  intro r hmem
  have hmem' : r ∈ df.filter
      (fun x => decide (x.year ∈ effYears df s ∧ x.region ∈ effRegions df s ∧
        x.sector ∈ effSectors df s)) := hmem
  have hpred := of_decide_eq_true (List.mem_filter.mp hmem').2
  apply decide_eq_true
  refine ⟨?_, ?_, ?_⟩
  · by_cases h : s.years.isEmpty
    · unfold effYears
      rw [if_pos h]
      exact mem_all_years.mpr (List.mem_map_of_mem _ hmem)
    · have h1 := hpred.1
      unfold effYears at h1 ⊢
      rw [if_neg h] at h1 ⊢
      exact h1
  · by_cases h : s.regions.isEmpty
    · unfold effRegions
      rw [if_pos h]
      exact mem_all_provinces.mpr (List.mem_map_of_mem _ hmem)
    · have h1 := hpred.2.1
      unfold effRegions at h1 ⊢
      rw [if_neg h] at h1 ⊢
      exact h1
  · by_cases h : s.sectors.isEmpty
    · unfold effSectors
      rw [if_pos h]
      exact mem_all_sectors.mpr (List.mem_map_of_mem _ hmem)
    · have h1 := hpred.2.2
      unfold effSectors at h1 ⊢
      rw [if_neg h] at h1 ⊢
      exact h1

theorem strData_inj {a b : String} (h : a.data = b.data) : a = b := by
  cases a
  cases b
  simp_all

theorem orderedInsert_pairwise_lexRank {x : String × ℚ} {S : List (String × ℚ)}
    (hS : S.Pairwise lexRank) (hx : ∀ b ∈ S, strLt x.1 b.1) :
    (List.orderedInsert (fun a b => b.2 ≤ a.2) x S).Pairwise lexRank := by
  induction S with
  | nil => simp [List.orderedInsert]
  | cons b S ih =>
    rw [List.orderedInsert]
    split
    case isTrue h =>
      refine List.Pairwise.cons ?_ hS
      intro c hc
      rcases List.mem_cons.mp hc with rfl | hcS
      · rcases lt_or_eq_of_le h with hlt | heq
        · exact Or.inl hlt
        · exact Or.inr ⟨heq.symm, hx _ (List.mem_cons_self _ _)⟩
      · rcases List.rel_of_pairwise_cons hS hcS with h1 | h2
        · exact Or.inl (lt_of_lt_of_le h1 h)
        · rcases lt_or_eq_of_le h with hlt | heq
          · exact Or.inl (h2.1 ▸ hlt)
          · exact Or.inr ⟨heq.symm.trans h2.1, hx _ (List.mem_cons_of_mem _ hcS)⟩
    case isFalse h =>
      refine List.Pairwise.cons ?_
        (ih hS.of_cons (fun c hc => hx c (List.mem_cons_of_mem _ hc)))
      intro c hc
      rcases (List.mem_orderedInsert _).mp hc with rfl | hcS
      · exact Or.inl (lt_of_not_le h)
      · exact List.rel_of_pairwise_cons hS hcS

theorem insertionSort_pairwise_lexRank {l : List (String × ℚ)}
    (hl : l.Pairwise (fun a b => strLt a.1 b.1)) :
    (List.insertionSort (fun a b => b.2 ≤ a.2) l).Pairwise lexRank := by
  induction l with
  | nil => simp [List.insertionSort]
  | cons x l ih =>
    rw [List.insertionSort]
    apply orderedInsert_pairwise_lexRank (ih hl.of_cons)
    intro b hb
    exact List.rel_of_pairwise_cons hl ((List.mem_insertionSort _).mp hb)

theorem groupKeys_nodup (key : EmissionRecord → String) (df : Dataset) :
    (groupKeys key df).Nodup :=
  ((List.perm_insertionSort strLe _).nodup_iff).mpr (List.nodup_dedup _)

theorem groupKeys_pairwise_lt (key : EmissionRecord → String) (df : Dataset) :
    (groupKeys key df).Pairwise strLt := by
  have hs : (groupKeys key df).Pairwise strLe := List.sorted_insertionSort strLe _
  have hn : (groupKeys key df).Pairwise (fun a b => a ≠ b) := groupKeys_nodup key df
  exact (hs.and hn).imp
    (fun h => lt_of_le_of_ne h.1 (fun hd => h.2 (strData_inj hd)))

theorem mem_groupKeys {key : EmissionRecord → String} {df : Dataset} {r : EmissionRecord}
    (hr : r ∈ df) : key r ∈ groupKeys key df :=
  (List.mem_insertionSort _).mpr (List.mem_dedup.mpr (List.mem_map_of_mem _ hr))

theorem group_sum_pairwise (key : EmissionRecord → String) (df : Dataset) :
    (group_sum_by_key key df).Pairwise (fun a b => strLt a.1 b.1) := by
  unfold group_sum_by_key
  rw [List.pairwise_map]
  exact groupKeys_pairwise_lt key df

/-- C3: `top_n_by_region` returns at most `n` entries; they are ordered
descending by total with ties broken by region name ascending; each entry
pairs a region with the sum of the emissions of that region's records; and
when `n` is at least the number of distinct regions, every region appears. -/
theorem c3_top_n_by_region (df : Dataset) (n : Nat) :
    (top_n_by_region df n).length ≤ n ∧
    (top_n_by_region df n).Pairwise lexRank ∧
    (∀ p ∈ top_n_by_region df n,
      p.2 = total_emissions (df.filter (fun r => decide (r.region = p.1)))) ∧
    ((df.map (fun r => r.region)).dedup.length ≤ n →
      List.Perm ((top_n_by_region df n).map Prod.fst) (df.map (fun r => r.region)).dedup) := by
  refine ⟨?_, ?_, ?_, ?_⟩
  · unfold top_n_by_region
    rw [List.length_take]
    exact min_le_left _ _
  · exact (insertionSort_pairwise_lexRank
      (group_sum_pairwise (fun r => r.region) df)).sublist (List.take_sublist _ _)
  · intro p hp
    have hp2 := (List.mem_insertionSort _).mp (List.mem_of_mem_take hp)
    unfold group_sum_by_key at hp2
    rcases List.mem_map.mp hp2 with ⟨k, _, hpk⟩
    rw [← hpk]
  · intro hn
    unfold top_n_by_region
    have hlen : (List.insertionSort (fun a b => b.2 ≤ a.2)
        (group_sum_by_key (fun r => r.region) df)).length ≤ n := by
      rw [List.length_insertionSort]
      unfold group_sum_by_key
      rw [List.length_map]
      unfold groupKeys
      rw [List.length_insertionSort]
      exact hn
    rw [List.take_of_length_le hlen]
    have h1 : List.Perm ((List.insertionSort (fun a b => b.2 ≤ a.2)
          (group_sum_by_key (fun r => r.region) df)).map Prod.fst)
        ((group_sum_by_key (fun r => r.region) df).map Prod.fst) :=
      (List.perm_insertionSort _ _).map _
    have h2 : (group_sum_by_key (fun r => r.region) df).map Prod.fst =
        groupKeys (fun r => r.region) df := by
      unfold group_sum_by_key
      rw [List.map_map]
      exact List.map_id _
    have h3 : List.Perm (groupKeys (fun r => r.region) df)
        (df.map (fun r => r.region)).dedup :=
      List.perm_insertionSort _ _
    exact h1.trans (h2 ▸ h3)

theorem sum_map_ite_eq {keys : List String} {a : String} (c : ℚ)
    (hnd : keys.Nodup) (ha : a ∈ keys) :
    (keys.map (fun k => if a = k then c else 0)).sum = c := by
  induction keys with
  | nil => cases ha
  | cons k ks ih =>
    rcases List.mem_cons.mp ha with rfl | haks
    · rw [List.map_cons, List.sum_cons, if_pos rfl]
      have hz : (ks.map fun k' => if a = k' then c else (0 : ℚ)).sum = 0 := by
        apply List.sum_eq_zero
        intro x hx
        rcases List.mem_map.mp hx with ⟨k', hk', rfl⟩
        rw [if_neg]
        intro he
        exact (List.nodup_cons.mp hnd).1 (he ▸ hk')
      rw [hz, add_zero]
    · rw [List.map_cons, List.sum_cons, if_neg, ih (List.nodup_cons.mp hnd).2 haks, zero_add]
      intro he
      exact (List.nodup_cons.mp hnd).1 (he ▸ haks)

theorem grouped_sum_eq_total (key : EmissionRecord → String) (keys : List String)
    (df : Dataset) (hnd : keys.Nodup) (hcov : ∀ r ∈ df, key r ∈ keys) :
    (keys.map (fun k => total_emissions (df.filter (fun r => decide (key r = k))))).sum
      = total_emissions df := by
  induction df with
  | nil =>
    simp only [List.filter_nil]
    apply List.sum_eq_zero
    intro x hx
    rcases List.mem_map.mp hx with ⟨k, _, rfl⟩
    rfl
  | cons r df ih =>
    have hstep : ∀ k, total_emissions ((r :: df).filter (fun x => decide (key x = k)))
        = (if key r = k then r.emissions else 0)
          + total_emissions (df.filter (fun x => decide (key x = k))) := by
      intro k
      by_cases h : key r = k
      · simp [List.filter_cons, h, total_emissions]
      · simp [List.filter_cons, h, total_emissions]
    rw [List.map_congr_left (fun k _ => hstep k), List.sum_map_add,
      sum_map_ite_eq r.emissions hnd (hcov r (List.mem_cons_self _ _)),
      ih (fun x hx => hcov x (List.mem_cons_of_mem _ hx))]
    show r.emissions + total_emissions df = total_emissions (r :: df)
    simp [total_emissions]

theorem group_sum_snd_sum (key : EmissionRecord → String) (df : Dataset) :
    ((group_sum_by_key key df).map Prod.snd).sum = total_emissions df := by
  unfold group_sum_by_key
  rw [List.map_map]
  exact grouped_sum_eq_total key (groupKeys key df) df (groupKeys_nodup key df)
    (fun r hr => mem_groupKeys hr)

/-- C4: the grand total of emissions is invariant under the choice of
grouping dimension — summing the grouped-by-region totals or the
grouped-by-sector totals both give `total_emissions`. -/
theorem c4_total_invariant (df : Dataset) :
    total_emissions df = ((group_sum_by_key (fun r => r.region) df).map Prod.snd).sum ∧
    total_emissions df = ((group_sum_by_key (fun r => r.sector) df).map Prod.snd).sum :=
  ⟨(group_sum_snd_sum (fun r => r.region) df).symm,
   (group_sum_snd_sum (fun r => r.sector) df).symm⟩

theorem read_excel_ok_inv {src : Source} {rows : List RawRow}
    (h : read_excel src = .ok rows) :
    src.readable = true ∧
      relevant_cols.all (fun c => decide (c ∈ src.columns)) = true ∧ rows = src.rows := by
  unfold read_excel at h
  by_cases h1 : src.readable = false
  · rw [if_pos h1] at h
    cases h
  · rw [if_neg h1] at h
    have hr : src.readable = true := by
      cases hv : src.readable
      · exact absurd hv h1
      · rfl
    by_cases h2 : relevant_cols.all (fun c => decide (c ∈ src.columns)) = true
    · rw [if_pos h2] at h
      injection h with h
      exact ⟨hr, h2, h.symm⟩
    · rw [if_neg h2] at h
      cases h

/-- C6: a readable source missing one of the four required columns makes
`load_data` report the missing-columns critical error and return the empty
dataset — no partial dataset survives. -/
theorem c6_missing_column (src : Source) (c : String)
    (hread : src.readable = true) (hc : c ∈ relevant_cols) (hmiss : c ∉ src.columns) :
    load_data src = [] ∧
      loadEvents src = [LoadEvent.criticalError LoadErr.missingColumns] := by
  have hall : relevant_cols.all (fun x => decide (x ∈ src.columns)) ≠ true := by
    intro hall
    exact hmiss (of_decide_eq_true (List.all_eq_true.mp hall c hc))
  have hre : read_excel src = .error .missingColumns := by
    unfold read_excel
    rw [hread, if_neg (by simp), if_neg hall]
  constructor
  · show (loadFull src).1 = []
    unfold loadFull
    rw [hre]
  · show (loadFull src).2 = _
    unfold loadFull
    rw [hre]

theorem c6_witness :
    load_data srcNoDate = [] ∧
      loadEvents srcNoDate = [LoadEvent.criticalError LoadErr.missingColumns] :=
  c6_missing_column srcNoDate "Date" rfl (by decide) (by decide)

theorem convertUntyped_fails {rows : List RawRow} {row : RawRow}
    (hmem : row ∈ rows) (hfail : convertCell row.dateCell = .error ()) :
    convertUntyped rows = .error () := by
  induction rows with
  | nil => cases hmem
  | cons a rest ih =>
    rcases List.mem_cons.mp hmem with rfl | hm
    · unfold convertUntyped
      rw [hfail]
    · unfold convertUntyped
      cases ha : convertCell a.dateCell with
      | error e =>
        cases e
        rfl
      | ok d =>
        rw [ih hm]

/-- C7: when the `Date` column is not already typed, a single cell that does
not fit the dd/mm/yyyy format aborts the whole load — `load_data` reports the
date-conversion error and returns the empty dataset — and the parser reads
day, then month, then year. -/
theorem c7_date_parse_abort (src : Source) (row : RawRow)
    (hread : src.readable = true)
    (hcols : relevant_cols.all (fun c => decide (c ∈ src.columns)) = true)
    (htyped : src.dateTyped = false)
    (hmem : row ∈ src.rows)
    (hfail : convertCell row.dateCell = Except.error ()) :
    (load_data src = [] ∧ loadEvents src = [LoadEvent.dateError]) ∧
    parseDate ("25/12/2024") = some { year := 2024, month := 12, day := 25 } ∧
    parseDate ("12/25/2024") = none := by
  refine ⟨?_, by decide, by decide⟩
  have hre : read_excel src = .ok src.rows := by
    unfold read_excel
    rw [hread, if_neg (by simp), if_pos hcols]
  have hne : src.rows.isEmpty = false := by
    cases hv : src.rows with
    | nil =>
      rw [hv] at hmem
      cases hmem
    | cons a l => rfl
  have hcd : convertDates src.dateTyped src.rows = .error () := by
    rw [htyped]
    show convertUntyped src.rows = .error ()
    exact convertUntyped_fails hmem hfail
  constructor
  · show (loadFull src).1 = []
    unfold loadFull
    rw [hre]
    simp [hne, hcd]
  · show (loadFull src).2 = _
    unfold loadFull
    rw [hre]
    simp [hne, hcd]

theorem c7_witness :
    (load_data srcBadDate = [] ∧ loadEvents srcBadDate = [LoadEvent.dateError]) ∧
    parseDate ("25/12/2024") = some { year := 2024, month := 12, day := 25 } ∧
    parseDate ("12/25/2024") = none :=
  c7_date_parse_abort srcBadDate
    { state := some "Shandong", dateCell := some (.inl "2023-01-01"),
      sector := some "Power", emissions := some 10 }
    rfl (by decide) rfl (by decide) rfl

theorem convertUntyped_ok_mem {rows : List RawRow} {rows2 : List (RawRow × Option Date)}
    (h : convertUntyped rows = .ok rows2) {row : RawRow} {d : Option Date}
    (hm : (row, d) ∈ rows2) :
    row ∈ rows ∧ convertCell row.dateCell = .ok d := by
  induction rows generalizing rows2 with
  | nil =>
    unfold convertUntyped at h
    injection h with h
    subst h
    cases hm
  | cons a rest ih =>
    unfold convertUntyped at h
    cases ha : convertCell a.dateCell with
    | error e =>
      rw [ha] at h
      cases h
    | ok d' =>
      rw [ha] at h
      cases hrest : convertUntyped rest with
      | error e =>
        rw [hrest] at h
        cases h
      | ok rs =>
        rw [hrest] at h
        injection h with h
        subst h
        rcases List.mem_cons.mp hm with heq | hm'
        · obtain ⟨rfl, rfl⟩ := Prod.mk.inj heq
          exact ⟨List.mem_cons_self _ _, ha⟩
        · obtain ⟨h1, h2⟩ := ih hrest hm'
          exact ⟨List.mem_cons_of_mem _ h1, h2⟩

theorem convertDates_ok_mem {t : Bool} {rows : List RawRow}
    {rows2 : List (RawRow × Option Date)} (h : convertDates t rows = .ok rows2)
    {row : RawRow} {d : Option Date} (hm : (row, d) ∈ rows2) :
    row ∈ rows ∧ (d = typedCell row.dateCell ∨ convertCell row.dateCell = .ok d) := by
  cases t with
  | true =>
    have h' : Except.ok (ε := Unit) (rows.map (fun x => (x, typedCell x.dateCell)))
        = .ok rows2 := h
    injection h' with h'
    subst h'
    rcases List.mem_map.mp hm with ⟨row', hrow', heq⟩
    obtain ⟨rfl, rfl⟩ := Prod.mk.inj heq.symm
    exact ⟨hrow', Or.inl rfl⟩
  | false =>
    have h' : convertUntyped rows = .ok rows2 := h
    obtain ⟨h1, h2⟩ := convertUntyped_ok_mem h' hm
    exact ⟨h1, Or.inr h2⟩

theorem typedCell_eq_some {cell : Option (Sum String Date)} {d : Date}
    (h : typedCell cell = some d) : cell = some (Sum.inr d) := by
  cases cell with
  | none => cases h
  | some v =>
    cases v with
    | inl s => cases h
    | inr d' =>
      have h2 : some d' = some d := h
      injection h2 with h2
      rw [h2]

theorem convertCell_ok_some_ne_none {cell : Option (Sum String Date)} {d : Date}
    (h : convertCell cell = .ok (some d)) : cell ≠ none := by
  intro hc
  subst hc
  have h2 : (some (α := Date) d) = none := by
    have h3 : Except.ok (ε := Unit) (Option.none (α := Date)) = .ok (some d) := h
    injection h3 with h3
    exact h3.symm
  cases h2

/-- C8: every record of a loaded dataset has `year` equal to the calendar
year of its `date` and `month_name` equal to the full English month name of
its `date`, and it stems from a source row in which every required cell is
non-null (rows with a missing cell are dropped). -/
theorem c8_record_invariants (src : Source) (r : EmissionRecord)
    (hr : r ∈ load_data src) :
    r.year = r.date.year ∧ r.month_name = monthName r.date.month ∧
    ∃ row ∈ src.rows, row.state = some r.region ∧ row.sector = some r.sector ∧
      row.emissions = some r.emissions ∧ row.dateCell ≠ none := by
  have hr2 : r ∈ (loadFull src).1 := hr
  unfold loadFull at hr2
  cases hre : read_excel src with
  | error e =>
    rw [hre] at hr2
    simp at hr2
  | ok rows =>
    rw [hre] at hr2
    dsimp only at hr2
    by_cases hemp : rows.isEmpty = true
    · rw [if_pos hemp] at hr2
      simp at hr2
    · rw [if_neg hemp] at hr2
      cases hcv : convertDates src.dateTyped rows with
      | error e =>
        rw [hcv] at hr2
        simp at hr2
      | ok rows2 =>
        rw [hcv] at hr2
        dsimp only at hr2
        rcases List.mem_filterMap.mp hr2 with ⟨⟨row, d⟩, hmem2, hbuild⟩
        have hrows : rows = src.rows := (read_excel_ok_inv hre).2.2
        obtain ⟨hrowmem, hdate⟩ := convertDates_ok_mem hcv hmem2
        unfold buildRecord at hbuild
        cases hst : row.state with
        | none =>
          rw [hst] at hbuild
          cases hbuild
        | some st =>
        cases hd : d with
        | none =>
          rw [hst, hd] at hbuild
          cases hbuild
        | some dt =>
        cases hsec : row.sector with
        | none =>
          rw [hst, hd, hsec] at hbuild
          cases hbuild
        | some sec =>
        cases hem : row.emissions with
        | none =>
          rw [hst, hd, hsec, hem] at hbuild
          cases hbuild
        | some em =>
          rw [hst, hd, hsec, hem] at hbuild
          injection hbuild with hb
          subst hb
          refine ⟨rfl, rfl, row, hrows ▸ hrowmem, hst, hsec, hem, ?_⟩
          rcases hdate with h1 | h2
          · have : typedCell row.dateCell = some dt := by rw [← h1, hd]
            rw [typedCell_eq_some this]
            intro hx
            cases hx
          · rw [hd] at h2
            exact convertCell_ok_some_ne_none h2

theorem c8_witness :
    sampleRec.year = sampleRec.date.year ∧
    sampleRec.month_name = monthName sampleRec.date.month ∧
    ∃ row ∈ sampleSrc.rows, row.state = some sampleRec.region ∧
      row.sector = some sampleRec.sector ∧
      row.emissions = some sampleRec.emissions ∧ row.dateCell ≠ none :=
  c8_record_invariants sampleSrc sampleRec (by decide)

/-- C9: `load_data` raises nothing — it is a total function — and on every
failure condition (unreadable source, missing required column, column-wide
date-parse failure) it returns the empty dataset, the same value a
successfully loaded zero-row source yields. -/
theorem c9_load_never_fails (src : Source)
    (h : src.readable = false ∨
      relevant_cols.all (fun c => decide (c ∈ src.columns)) = false ∨
      (src.dateTyped = false ∧ convertUntyped src.rows = Except.error ())) :
    load_data src = [] ∧ load_data src = load_data emptyOkSrc := by
  have hempty : load_data emptyOkSrc = [] := by decide
  suffices hm : load_data src = [] from ⟨hm, hm.trans hempty.symm⟩
  show (loadFull src).1 = []
  unfold loadFull
  cases hre : read_excel src with
  | error e => rfl
  | ok rows =>
    obtain ⟨hr, hall, hrows⟩ := read_excel_ok_inv hre
    rcases h with h1 | h2 | ⟨h3, h4⟩
    · rw [hr] at h1
      cases h1
    · rw [hall] at h2
      cases h2
    · dsimp only
      by_cases hemp : rows.isEmpty = true
      · rw [if_pos hemp]
      · rw [if_neg hemp]
        have hcd : convertDates src.dateTyped rows = .error () := by
          rw [h3, hrows]
          exact h4
        rw [hcd]

theorem c9_witness :
    load_data srcUnreadable = [] ∧ load_data srcUnreadable = load_data emptyOkSrc :=
  c9_load_never_fails srcUnreadable (Or.inl rfl)

/-- C10: the metrics of Tab 1 exist only when the filtered dataset is
non-empty (the page stops first otherwise), and then the mean daily
emissions equals the sum divided by a count of at least one. -/
theorem c10_mean_guard (df : Dataset) (s : FilterSelection) (m : Metrics)
    (h : pipelineMetrics df s = some m) :
    1 ≤ (df_filtered df s).length ∧
    m.avgDaily = total_emissions (df_filtered df s) / ((df_filtered df s).length : ℚ) ∧
    m.total = total_emissions (df_filtered df s) := by
  unfold pipelineMetrics at h
  by_cases hemp : (df_filtered df s).isEmpty = true
  · rw [if_pos hemp] at h
    cases h
  · rw [if_neg hemp] at h
    injection h with h
    subst h
    refine ⟨?_, rfl, rfl⟩
    have hf : (df_filtered df s).isEmpty = false := by
      cases hv : (df_filtered df s).isEmpty
      · rfl
      · exact absurd hv hemp
    exact List.length_pos.mpr (List.isEmpty_eq_false.mp hf)

theorem c10_witness :
    1 ≤ (df_filtered sampleD { years := [], regions := [], sectors := [] }).length ∧
    (Metrics.mk 17 (17 / 3)).avgDaily
        = total_emissions (df_filtered sampleD { years := [], regions := [], sectors := [] })
          / ((df_filtered sampleD { years := [], regions := [], sectors := [] }).length : ℚ) ∧
    (Metrics.mk 17 (17 / 3)).total
        = total_emissions (df_filtered sampleD { years := [], regions := [], sectors := [] }) :=
  c10_mean_guard sampleD { years := [], regions := [], sectors := [] } (Metrics.mk 17 (17 / 3))
    (by
      have hdf : df_filtered sampleD { years := [], regions := [], sectors := [] } = sampleD := by
        decide
      have ht : total_emissions sampleD = 17 := by norm_num [total_emissions, sampleD]
      have ha : avg_daily_emissions sampleD = 17 / 3 := by
        rw [avg_daily_emissions, ht]
        norm_num [sampleD]
      unfold pipelineMetrics
      rw [hdf, if_neg (by decide), ht, ha])

theorem c3_witness :
    (top_n_by_region sampleD 5).length ≤ 5 ∧
    (top_n_by_region sampleD 5).Pairwise lexRank ∧
    (∀ p ∈ top_n_by_region sampleD 5,
      p.2 = total_emissions (sampleD.filter (fun r => decide (r.region = p.1)))) ∧
    ((sampleD.map (fun r => r.region)).dedup.length ≤ 5 →
      List.Perm ((top_n_by_region sampleD 5).map Prod.fst)
        (sampleD.map (fun r => r.region)).dedup) :=
  c3_top_n_by_region sampleD 5

end CarbonApp
